import Mathlib

/-!
Verification of the Vimshottari dasha computation of `src/app.py`
(the route handler `dasha_full`, lines 163–208).

The embedding models Python float arithmetic over exact rationals and
timestamps as rationals measured in days (`timedelta(days = x)` becomes
addition of `x`).  The Moon's ecliptic longitude, obtained in the source
from the external ephemeris library, is a plain input here, matching the
specification's component boundary.
-/

/-- The nine planetary lords appearing in `nak_lords` and `years_table`. -/
inductive Lord
  | Ketu
  | Venus
  | Sun
  | Moon
  | Mars
  | Rahu
  | Jupiter
  | Saturn
  | Mercury
deriving DecidableEq

/-- `nak_lords` (app.py line 175): the fixed lordship cycle. -/
def nak_lords : List Lord :=
  [.Ketu, .Venus, .Sun, .Moon, .Mars, .Rahu, .Jupiter, .Saturn, .Mercury]

/-- `years_table` (app.py line 179): year-weight of each lord. -/
def years_table : Lord → ℕ
  | .Ketu => 7
  | .Venus => 20
  | .Sun => 6
  | .Moon => 10
  | .Mars => 7
  | .Rahu => 18
  | .Jupiter => 16
  | .Saturn => 19
  | .Mercury => 17

/-- Python's `%` on numbers: the remainder whose sign follows the divisor.
For divisor `360` the result always lies in `[0, 360)`. -/
def pythonMod (x m : ℚ) : ℚ := x - m * (⌊x / m⌋ : ℚ)

/-- `nak_index` (app.py line 176): `int((moon_lon % 360) / 13.3333)`.
The argument of `int` is nonnegative, so truncation equals floor. -/
def nak_index (moon_lon : ℚ) : ℕ :=
  (⌊pythonMod moon_lon 360 / (13.3333 : ℚ)⌋).toNat

/-- `moon_lord` (app.py line 177): `nak_lords[nak_index % 9]`. -/
def moon_lord (moon_lon : ℚ) : Lord :=
  nak_lords.getD (nak_index moon_lon % 9) .Ketu

/-- `dasha_order` (app.py line 178):
`nak_lords[i:] + nak_lords[:i]` with `i = nak_lords.index(moon_lord)`. -/
def dasha_order (l : Lord) : List Lord :=
  nak_lords.drop (nak_lords.indexOf l) ++ nak_lords.take (nak_lords.indexOf l)

/-- One Antardasha entry of the inner loop (app.py lines 193–197).
`durationYears` records the `antar_duration` value used to build it. -/
structure Antar where
  lord : Lord
  start : ℚ
  stop : ℚ
  durationYears : ℚ
deriving DecidableEq

/-- One Mahadasha entry of the outer loop (app.py lines 200–205).
`durationYears` records the `maha_years` value used to build it. -/
structure Maha where
  lord : Lord
  start : ℚ
  stop : ℚ
  durationYears : ℚ
  antar : List Antar
deriving DecidableEq

/-- The inner `for sublord in dasha_order` loop (app.py lines 190–198):
`antar_duration = maha_years * (years_table[sublord] / 120)`;
`antar_end = antar_start + antar_duration * 365.25` days;
the running `antar_start` is threaded through the recursion. -/
def buildAntars (order : List Lord) (maha_years antar_start : ℚ) : List Antar :=
  match order with
  | [] => []
  | sublord :: rest =>
    let antar_duration := maha_years * ((years_table sublord : ℚ) / 120)
    let antar_end := antar_start + antar_duration * (365.25 : ℚ)
    { lord := sublord, start := antar_start, stop := antar_end,
      durationYears := antar_duration } :: buildAntars rest maha_years antar_end

/-- The outer `for lord in dasha_order` loop (app.py lines 184–206):
`maha_years = years_table[lord]` (always the full weight);
`end_date = start_date + maha_years * 365.25` days; the inner loop runs
over the same fixed `dasha_order` (`full`) starting at the parent's start;
`start_date = end_date` threads to the next iteration. -/
def buildMahas (order full : List Lord) (start_date : ℚ) : List Maha :=
  match order with
  | [] => []
  | lord :: rest =>
    let maha_years : ℚ := (years_table lord : ℚ)
    let end_date := start_date + maha_years * (365.25 : ℚ)
    { lord := lord, start := start_date, stop := end_date,
      durationYears := maha_years,
      antar := buildAntars full maha_years start_date } :: buildMahas rest full end_date

/-- The dasha core of `dasha_full` (app.py lines 173–208): locate the
nakshatra lord of the Moon longitude, rotate the cycle to start there, and
run the two nested loops from the birth timestamp.  Returns the pair
`(Nakshatra_Lord, Full_Vimshottari_Dasha)`. -/
def dasha_full (moon_lon birth : ℚ) : Lord × List Maha :=
  let ml := moon_lord moon_lon
  let order := dasha_order ml
  (ml, buildMahas order order birth)

/-- Modelled from the spec (§4.1), for comparison with the code's
`nak_index`: span `360/27`, `index = floor(normalized / span)` clamped to
`[0, 26]`. -/
def specNakIndex (lon : ℚ) : ℕ :=
  min (⌊pythonMod lon 360 / ((360 : ℚ) / 27)⌋).toNat 26

/-- Modelled from the spec (§4.1): `fractionElapsed =
(normalized - index * span) / span` with span `360/27`. -/
def specFractionElapsed (lon : ℚ) : ℚ :=
  (pythonMod lon 360 - (specNakIndex lon : ℚ) * ((360 : ℚ) / 27)) / ((360 : ℚ) / 27)

/-- Modelled from the spec (§4.4 step 3): `remainingYears =
(1 - fractionElapsed) * weight(currentLord)`. -/
def specRemainingYears (lon : ℚ) : ℚ :=
  (1 - specFractionElapsed lon) * (years_table (moon_lord lon) : ℚ)

/-! ### Helper lemmas about the two loops -/

theorem buildAntars_lords (order : List Lord) (y s : ℚ) :
    (buildAntars order y s).map Antar.lord = order := by
  induction order generalizing s with
  | nil => rfl
  | cons l rest ih => simp [buildAntars, ih]

theorem buildAntars_length (order : List Lord) (y s : ℚ) :
    (buildAntars order y s).length = order.length := by
  induction order generalizing s with
  | nil => rfl
  | cons l rest ih => simp [buildAntars, ih]

theorem buildAntars_mem (order : List Lord) (y s : ℚ) (a : Antar)
    (ha : a ∈ buildAntars order y s) :
    a.durationYears = y * ((years_table a.lord : ℚ) / 120) ∧
    a.stop = a.start + a.durationYears * (365.25 : ℚ) := by
  induction order generalizing s with
  | nil => simp [buildAntars] at ha
  | cons l rest ih =>
    simp only [buildAntars, List.mem_cons] at ha
    rcases ha with h | h
    · subst h
      exact ⟨rfl, rfl⟩
    · exact ih _ h

theorem buildAntars_sum (order : List Lord) (y s : ℚ) :
    ((buildAntars order y s).map Antar.durationYears).sum
      = y * (((order.map years_table).sum : ℚ) / 120) := by
  induction order generalizing s with
  | nil => simp [buildAntars]
  | cons l rest ih =>
    simp only [buildAntars, List.map_cons, List.sum_cons, ih]
    push_cast
    ring

theorem buildAntars_head_start (order : List Lord) (y s : ℚ) (b : Antar)
    (hb : b ∈ (buildAntars order y s).head?) : b.start = s := by
  cases order with
  | nil => simp [buildAntars] at hb
  | cons l rest =>
    simp only [buildAntars, List.head?_cons, Option.mem_def, Option.some.injEq] at hb
    subst hb
    rfl

theorem buildAntars_head_map (order : List Lord) (y s : ℚ) (h : order ≠ []) :
    (buildAntars order y s).head?.map Antar.start = some s := by
  cases order with
  | nil => exact absurd rfl h
  | cons l rest => rfl

theorem buildAntars_chain (order : List Lord) (y s : ℚ) :
    List.Chain' (fun a b => a.stop = b.start) (buildAntars order y s) := by
  induction order generalizing s with
  | nil => simp [buildAntars]
  | cons l rest ih =>
    rw [buildAntars]
    refine List.chain'_cons'.mpr ⟨fun b hb => ?_, ih _⟩
    rw [buildAntars_head_start _ _ _ _ hb]

theorem buildMahas_lords (order full : List Lord) (s : ℚ) :
    (buildMahas order full s).map Maha.lord = order := by
  induction order generalizing s with
  | nil => rfl
  | cons l rest ih => simp [buildMahas, ih]

theorem buildMahas_length (order full : List Lord) (s : ℚ) :
    (buildMahas order full s).length = order.length := by
  induction order generalizing s with
  | nil => rfl
  | cons l rest ih => simp [buildMahas, ih]

theorem buildMahas_mem (order full : List Lord) (s : ℚ) (m : Maha)
    (hm : m ∈ buildMahas order full s) :
    m.durationYears = (years_table m.lord : ℚ) ∧
    m.stop = m.start + m.durationYears * (365.25 : ℚ) ∧
    m.antar = buildAntars full m.durationYears m.start := by
  induction order generalizing s with
  | nil => simp [buildMahas] at hm
  | cons l rest ih =>
    simp only [buildMahas, List.mem_cons] at hm
    rcases hm with h | h
    · subst h
      exact ⟨rfl, rfl, rfl⟩
    · exact ih _ h

theorem buildMahas_head_start (order full : List Lord) (s : ℚ) (b : Maha)
    (hb : b ∈ (buildMahas order full s).head?) : b.start = s := by
  cases order with
  | nil => simp [buildMahas] at hb
  | cons l rest =>
    simp only [buildMahas, List.head?_cons, Option.mem_def, Option.some.injEq] at hb
    subst hb
    rfl

theorem buildMahas_head_map (order full : List Lord) (s : ℚ) (h : order ≠ []) :
    (buildMahas order full s).head?.map Maha.start = some s := by
  cases order with
  | nil => exact absurd rfl h
  | cons l rest => rfl

theorem buildMahas_chain (order full : List Lord) (s : ℚ) :
    List.Chain' (fun a b => a.stop = b.start) (buildMahas order full s) := by
  induction order generalizing s with
  | nil => simp [buildMahas]
  | cons l rest ih =>
    rw [buildMahas]
    refine List.chain'_cons'.mpr ⟨fun b hb => ?_, ih _⟩
    rw [buildMahas_head_start _ _ _ _ hb]

/-- Unfolding `dasha_full` to the two loops over the birth rotation. -/
theorem dasha_full_eq (moon_lon birth : ℚ) :
    dasha_full moon_lon birth
      = (moon_lord moon_lon,
         buildMahas (dasha_order (moon_lord moon_lon))
           (dasha_order (moon_lord moon_lon)) birth) := rfl

theorem dasha_order_perm (l : Lord) : (dasha_order l).Perm nak_lords := by
  cases l <;> decide

theorem dasha_order_head (l : Lord) : (dasha_order l).head? = some l := by
  cases l <;> decide

theorem dasha_order_ne_nil (l : Lord) : dasha_order l ≠ [] := by
  cases l <;> decide

theorem dasha_order_years_sum (l : Lord) :
    ((dasha_order l).map years_table).sum = 120 := by
  cases l <;> decide

theorem dasha_order_length (l : Lord) : (dasha_order l).length = 9 := by
  cases l <;> decide

/-! ### Bounds for the normalization and raw index -/

theorem pythonMod_nonneg (x : ℚ) : 0 ≤ pythonMod x 360 := by
  unfold pythonMod
  have h := Int.floor_le (x / 360)
  linarith

theorem pythonMod_lt (x : ℚ) : pythonMod x 360 < 360 := by
  unfold pythonMod
  have h := Int.lt_floor_add_one (x / 360)
  linarith

theorem nak_index_le (lon : ℚ) : nak_index lon ≤ 27 := by
  unfold nak_index
  have h := pythonMod_lt lon
  have h28 : ⌊pythonMod lon 360 / (13.3333 : ℚ)⌋ < 28 := by
    rw [Int.floor_lt]
    rw [div_lt_iff₀ (by norm_num)]
    push_cast
    linarith
  omega

/-- C4 (amended): the Nakshatra Locator of the code is total: every
rational longitude is normalized by the Python modulus into `[0, 360)`
(negative inputs wrap), the raw index `floor(normalized / 13.3333)` is at
most 27 — the code performs no clamping to `[0, 26]` — and at the claim's
boundary points the code yields indices 0, 0 and 1 (`locate(0) = 0`,
`locate(360) = 0`, `locate(13.333333) = 1`). -/
theorem C4_amended (lon : ℚ) :
    0 ≤ pythonMod lon 360 ∧ pythonMod lon 360 < 360 ∧
    nak_index lon ≤ 27 ∧
    nak_index 0 = 0 ∧ nak_index 360 = 0 ∧ nak_index (13.333333 : ℚ) = 1 ∧
    pythonMod (-90 : ℚ) 360 = 270 :=
  ⟨pythonMod_nonneg lon, pythonMod_lt lon, nak_index_le lon,
   by norm_num [nak_index, pythonMod], by norm_num [nak_index, pythonMod],
   by norm_num [nak_index, pythonMod], by norm_num [pythonMod]⟩

/-- C4 counterexample: at longitude 359.9995 the code computes raw
nakshatra index 27, while the spec's clamped formula
`min (floor(normalized / (360/27))) 26` gives 26 — the code's index is not
clamped to `[0, 26]`. -/
theorem C4_counterexample :
    nak_index (3599995 / 10000 : ℚ) = 27 ∧
    specNakIndex (3599995 / 10000 : ℚ) = 26 ∧ (27 : ℕ) ≠ 26 := by
  refine ⟨?_, ?_, by decide⟩
  · norm_num [nak_index, pythonMod]
    decide
  · norm_num [specNakIndex, pythonMod]
    decide

/-- C7: `dasha_order` (the code's `rotateFrom`) is a permutation of the
nine lords whose first element is the given lord and which equals a
rotation of the fixed cycle (preserving cyclic order); the Mahadasha lords
of any output tree are exactly this rotation from the birth lord, and for
longitude 45 the sequence is Moon, Mars, Rahu, Jupiter, Saturn, Mercury,
Ketu, Venus, Sun. -/
theorem C7_rotation (l : Lord) (lon birth : ℚ) :
    (dasha_order l).Perm nak_lords ∧
    (dasha_order l).head? = some l ∧
    dasha_order l = nak_lords.rotate (nak_lords.indexOf l) ∧
    (dasha_full lon birth).2.map Maha.lord = dasha_order (moon_lord lon) ∧
    (dasha_full 45 0).2.map Maha.lord
      = [.Moon, .Mars, .Rahu, .Jupiter, .Saturn, .Mercury, .Ketu, .Venus, .Sun] := by
  refine ⟨dasha_order_perm l, dasha_order_head l, by cases l <;> decide, ?_, ?_⟩
  · rw [dasha_full_eq]
    exact buildMahas_lords _ _ _
  · rw [dasha_full_eq]
    rw [buildMahas_lords]
    have hm : moon_lord 45 = Lord.Moon := by
      norm_num [moon_lord, nak_index, pythonMod]
      decide
    rw [hm]
    decide

/-- C8: the fixed weight table assigns one integer weight to each of the
nine distinct lords of the cycle, and the nine weights sum to exactly
120. -/
theorem C8_weights :
    (nak_lords.map years_table).sum = 120 ∧
    nak_lords.length = 9 ∧ nak_lords.Nodup :=
  ⟨by decide, by decide, by decide⟩

/-- C9: determinism: the dasha computation is a pure function of the Moon
longitude and birth timestamp, so identical inputs produce identical
output trees, equal in every lord, start, end and duration field. -/
theorem C9_deterministic (lon1 birth1 lon2 birth2 : ℚ)
    (hlon : lon1 = lon2) (hbirth : birth1 = birth2) :
    dasha_full lon1 birth1 = dasha_full lon2 birth2 := by
  rw [hlon, hbirth]

/-- Witness for C9 at longitude 45, birth timestamp 0. -/
theorem C9_witness : dasha_full 45 0 = dasha_full 45 0 :=
  C9_deterministic 45 0 45 0 rfl rfl

/-- C10: the ruling-lord lookup never goes out of bounds: the raw index is
reduced mod 9 before indexing the nine-element lord list; whenever the
normalized longitude is at least `27 * 13.3333` the raw index is 27
(outside `[0, 26]`), and concretely at longitude 359.9995 the raw index is
27 and the lookup still succeeds, yielding Ketu. -/
theorem C10_lookup_safe (lon : ℚ) :
    nak_index lon % 9 < nak_lords.length ∧
    (27 * (13.3333 : ℚ) ≤ pythonMod lon 360 → nak_index lon = 27) ∧
    nak_index (3599995 / 10000 : ℚ) = 27 ∧
    moon_lord (3599995 / 10000 : ℚ) = Lord.Ketu := by
  refine ⟨Nat.mod_lt _ (by norm_num), fun h => ?_,
    by norm_num [nak_index, pythonMod]; decide,
    by norm_num [moon_lord, nak_index, pythonMod]; decide⟩
  have hlt := pythonMod_lt lon
  have hfl : ⌊pythonMod lon 360 / (13.3333 : ℚ)⌋ = 27 := by
    rw [Int.floor_eq_iff]
    constructor
    · rw [le_div_iff₀ (by norm_num)]
      push_cast
      linarith
    · rw [div_lt_iff₀ (by norm_num)]
      push_cast
      linarith
  unfold nak_index
  rw [hfl]
  rfl

/-- Witness for C10: at longitude 359.9995 the interval hypothesis holds
and the theorem yields raw index 27. -/
theorem C10_witness : nak_index (3599995 / 10000 : ℚ) = 27 :=
  (C10_lookup_safe (3599995 / 10000)).2.1 (by norm_num [pythonMod])

/-! ### Further helper lemmas for the remaining claims -/

theorem buildMahas_head_lord (order full : List Lord) (s : ℚ) :
    (buildMahas order full s).head?.map Maha.lord = order.head? := by
  cases order <;> rfl

theorem buildMahas_head_dur (order full : List Lord) (s : ℚ) :
    (buildMahas order full s).head?.map Maha.durationYears
      = order.head?.map (fun l => (years_table l : ℚ)) := by
  cases order <;> rfl

theorem buildAntars_head_lord (order : List Lord) (y s : ℚ) :
    (buildAntars order y s).head?.map Antar.lord = order.head? := by
  cases order <;> rfl

theorem buildMahas_head_bind (order full : List Lord) (s : ℚ) (h : order ≠ []) :
    (buildMahas order full s).head?.bind (fun m => m.antar.head?.map Antar.lord)
      = full.head? := by
  cases order with
  | nil => exact absurd rfl h
  | cons l rest => exact buildAntars_head_lord _ _ _

theorem buildMahas_antar_length (order full : List Lord) (s : ℚ) :
    (buildMahas order full s).map (fun m => m.antar.length)
      = order.map (fun _ => full.length) := by
  induction order generalizing s with
  | nil => rfl
  | cons l rest ih => simp [buildMahas, buildAntars_length, ih]

theorem dasha_antar_lengths (lon birth : ℚ) :
    (dasha_full lon birth).2.map (fun m => m.antar.length) = List.replicate 9 9 := by
  rw [dasha_full_eq]
  rw [buildMahas_antar_length, dasha_order_length]
  rw [List.map_const']
  rw [dasha_order_length]

/-- C1 (amended): the first top-level Period starts at the birth timestamp
and its lord is the birth nakshatra's ruling lord, but every top-level
Period — the first one included — carries the full year-weight of its
lord: the code applies no fractional-elapsed correction. -/
theorem C1_amended (lon birth : ℚ) :
    ((dasha_full lon birth).2.head?.map Maha.start = some birth) ∧
    ((dasha_full lon birth).2.head?.map Maha.lord = some (moon_lord lon)) ∧
    (dasha_full lon birth).2.Forall
      (fun m => m.durationYears = (years_table m.lord : ℚ)) := by
  refine ⟨?_, ?_, ?_⟩
  · rw [dasha_full_eq]
    exact buildMahas_head_map _ _ _ (dasha_order_ne_nil _)
  · rw [dasha_full_eq]
    rw [buildMahas_head_lord]
    exact dasha_order_head _
  · rw [List.forall_iff_forall_mem]
    intro m hm
    rw [dasha_full_eq] at hm
    exact (buildMahas_mem _ _ _ _ hm).1

/-- C1 counterexample: for Moon longitude 45 the first Mahadasha's
duration is the full 10 years of Moon, not the remaining portion
`(1 - fractionElapsed) * 10 = 6.25` years that the claim requires. -/
theorem C1_counterexample :
    ((dasha_full 45 0).2.head?.map Maha.durationYears = some 10) ∧
    specRemainingYears 45 = 25 / 4 ∧ (10 : ℚ) ≠ 25 / 4 := by
  have hm : moon_lord 45 = Lord.Moon := by
    norm_num [moon_lord, nak_index, pythonMod]
    decide
  refine ⟨?_, ?_, by norm_num⟩
  · rw [dasha_full_eq, buildMahas_head_dur, dasha_order_head, hm]
    norm_num [years_table]
  · unfold specRemainingYears
    rw [hm]
    norm_num [specFractionElapsed, specNakIndex, pythonMod, years_table,
      show Int.toNat 3 = 3 from rfl]

/-- C2 (amended): for every input the tree has exactly 9 top-level
Mahadashas, each with exactly 9 Antardasha children built by the
subdivision loop; the code builds no Pratyantardasha level, so there are
9 × 9 = 81 leaf periods. -/
theorem C2_amended (lon birth : ℚ) :
    (dasha_full lon birth).2.length = 9 ∧
    (dasha_full lon birth).2.Forall (fun m => m.antar.length = 9) ∧
    ((dasha_full lon birth).2.map (fun m => m.antar.length)).sum = 81 := by
  refine ⟨?_, ?_, ?_⟩
  · rw [dasha_full_eq, buildMahas_length, dasha_order_length]
  · rw [List.forall_iff_forall_mem]
    intro m hm
    rw [dasha_full_eq] at hm
    obtain ⟨-, -, ha⟩ := buildMahas_mem _ _ _ _ hm
    rw [ha, buildAntars_length, dasha_order_length]
  · rw [dasha_antar_lengths]
    decide

/-- C2 counterexample: at longitude 45 and birth 0 the tree has 81 leaf
periods (the Antardashas), not the 729 Pratyantardasha leaves the claim
requires — no third subdivision level exists in the output. -/
theorem C2_counterexample :
    ((dasha_full 45 0).2.map (fun m => m.antar.length)).sum = 81 ∧
    (81 : ℕ) ≠ 729 := by
  refine ⟨?_, by decide⟩
  rw [dasha_antar_lengths]
  decide

/-- C3 (amended): every Mahadasha's children follow the lordship cycle
rotated to start at the *birth* nakshatra's lord — the same fixed rotation
for all parents, not a rotation to the parent's own lord — so only the
first Mahadasha (whose lord is the birth lord) has self-first children. -/
theorem C3_amended (lon birth : ℚ) :
    (dasha_full lon birth).2.Forall
      (fun m => m.antar.map Antar.lord = dasha_order (moon_lord lon)) ∧
    ((dasha_full lon birth).2.head?.map Maha.lord = some (moon_lord lon)) ∧
    ((dasha_full lon birth).2.head?.bind (fun m => m.antar.head?.map Antar.lord)
      = some (moon_lord lon)) := by
  refine ⟨?_, ?_, ?_⟩
  · rw [List.forall_iff_forall_mem]
    intro m hm
    rw [dasha_full_eq] at hm
    obtain ⟨-, -, ha⟩ := buildMahas_mem _ _ _ _ hm
    rw [ha, buildAntars_lords]
  · rw [dasha_full_eq]
    rw [buildMahas_head_lord]
    exact dasha_order_head _
  · rw [dasha_full_eq]
    rw [buildMahas_head_bind _ _ _ (dasha_order_ne_nil _)]
    exact dasha_order_head _

/-- C3 counterexample: at longitude 45 the second Mahadasha is ruled by
Mars, yet its first Antardasha child is ruled by Moon (the birth lord), so
`subdivide(L, ...)[0].lord == L` fails for that parent. -/
theorem C3_counterexample :
    ((dasha_full 45 0).2.get? 1).map
        (fun m => (m.lord, m.antar.head?.map Antar.lord))
      = some (Lord.Mars, some Lord.Moon) ∧ Lord.Mars ≠ Lord.Moon := by
  have hm : moon_lord 45 = Lord.Moon := by
    norm_num [moon_lord, nak_index, pythonMod]
    decide
  refine ⟨?_, by decide⟩
  rw [dasha_full_eq, hm]
  decide

/-- C5: within every Mahadasha, each Antardasha child with lord L has
duration `parentDurationYears * weight(L) / 120`, and the nine child
durations sum exactly to the parent's duration (exact rational equality,
hence within any tolerance). -/
theorem C5_child_durations (lon birth : ℚ) :
    (dasha_full lon birth).2.Forall (fun m =>
      m.antar.Forall (fun a =>
        a.durationYears = m.durationYears * (years_table a.lord : ℚ) / 120) ∧
      (m.antar.map Antar.durationYears).sum = m.durationYears) := by
  rw [List.forall_iff_forall_mem]
  intro m hm
  rw [dasha_full_eq] at hm
  obtain ⟨hdur, hstop, hantar⟩ := buildMahas_mem _ _ _ _ hm
  constructor
  · rw [List.forall_iff_forall_mem]
    intro a ha
    rw [hantar] at ha
    rw [(buildAntars_mem _ _ _ _ ha).1]
    ring
  · rw [hantar, buildAntars_sum, dasha_order_years_sum]
    norm_num

/-- C6: the schedule is contiguous at both levels: the first Mahadasha
starts at the birth timestamp, each period's end is its start plus
`durationYears * 365.25` days, adjacent Mahadashas meet end-to-start, each
Mahadasha's first child starts at the parent's start, and adjacent
Antardashas meet end-to-start. -/
theorem C6_contiguity (lon birth : ℚ) :
    ((dasha_full lon birth).2.head?.map Maha.start = some birth) ∧
    List.Chain' (fun a b => a.stop = b.start) (dasha_full lon birth).2 ∧
    (dasha_full lon birth).2.Forall (fun m =>
      m.stop = m.start + m.durationYears * (365.25 : ℚ) ∧
      m.antar.head?.map Antar.start = some m.start ∧
      List.Chain' (fun a b => a.stop = b.start) m.antar ∧
      m.antar.Forall
        (fun a => a.stop = a.start + a.durationYears * (365.25 : ℚ))) := by
  refine ⟨?_, ?_, ?_⟩
  · rw [dasha_full_eq]
    exact buildMahas_head_map _ _ _ (dasha_order_ne_nil _)
  · rw [dasha_full_eq]
    exact buildMahas_chain _ _ _
  · rw [List.forall_iff_forall_mem]
    intro m hm
    rw [dasha_full_eq] at hm
    obtain ⟨hdur, hstop, hantar⟩ := buildMahas_mem _ _ _ _ hm
    refine ⟨hstop, ?_, ?_, ?_⟩
    · rw [hantar]
      exact buildAntars_head_map _ _ _ (dasha_order_ne_nil _)
    · rw [hantar]
      exact buildAntars_chain _ _ _
    · rw [List.forall_iff_forall_mem]
      intro a ha
      rw [hantar] at ha
      exact (buildAntars_mem _ _ _ _ ha).2
